import Mathlib

/-!
Verification of the chunkflow inference executor against its specification.

The definitions below are a shallow embedding of the Python sources:
  * `runExecutor` embeds the stage sequencing of `Executor.__call__`
    (src/chunkflow/executor.py), with the numpy truthiness conventions
    (`np.all`, `bool(ndarray)`) made explicit;
  * `maskOutput` embeds `Executor._mask_output`;
  * `maskMissingSections` embeds `Executor._mask_missing_sections`;
  * `crop` embeds `Executor._crop`;
  * `validateImageDownsample` embeds the recursive-downsampling loop of
    `Executor._validate_image`;
  * `sqsNextAux` embeds `SQSQueue.__next__` (src/chunkflow/lib/aws/sqs_queue.py),
    with an explicit fuel argument so that unbounded retrying is visible as
    fuel exhaustion at every fuel.
Machine integers of the sources are modelled as `Int`/`Nat`; numpy averages as
exact rationals; fallible numpy operations return `Except`.
-/

namespace ChunkflowSpec

/-- A dense 3-d array in the style of a numpy ndarray: a shape together with an
index function.  Statements only ever constrain indices inside the shape. -/
structure Arr3 (α : Type) where
  s0 : Nat
  s1 : Nat
  s2 : Nat
  data : Nat → Nat → Nat → α

/-- A dense 4-d array (channel, depth, row, column), as produced by inference. -/
structure Arr4 (α : Type) where
  s0 : Nat
  s1 : Nat
  s2 : Nat
  s3 : Nat
  data : Nat → Nat → Nat → Nat → α

/-- numpy truthiness of `np.all(mask)`: every element inside the shape is
nonzero. -/
def Arr3.allNonzero (a : Arr3 Int) : Prop :=
  ∀ i, i < a.s0 → ∀ j, j < a.s1 → ∀ k, k < a.s2 → a.data i j k ≠ 0

/-- `np.all(mask == 0)`: every element inside the shape is zero. -/
def Arr3.allZero (a : Arr3 Int) : Prop :=
  ∀ i, i < a.s0 → ∀ j, j < a.s1 → ∀ k, k < a.s2 → a.data i j k = 0

/-- `np.all(output == 0)`; `np.any output` is its negation. -/
def Arr4.allZero (a : Arr4 Int) : Prop :=
  ∀ c, c < a.s0 → ∀ i, i < a.s1 → ∀ j, j < a.s2 → ∀ k, k < a.s3 → a.data c i j k = 0

instance (a : Arr3 Int) : Decidable a.allNonzero := by
  unfold Arr3.allNonzero; infer_instance

instance (a : Arr3 Int) : Decidable a.allZero := by
  unfold Arr3.allZero; infer_instance

instance (a : Arr4 Int) : Decidable a.allZero := by
  unfold Arr4.allZero; infer_instance

/-- An axis-aligned integer bounding box (store order: x, y, z). -/
structure BBox3 where
  xs : Int
  xe : Int
  ys : Int
  ye : Int
  zs : Int
  ze : Int
deriving DecidableEq

/-- Modelled from the spec: `Bbox.to_filename` of the cloudvolume collaborator
(not under src/), "a deterministic string encoding of the box, used as an
idempotent artifact key".  The encoding is a pure function of the box. -/
def BBox3.toFilename (b : BBox3) : String :=
  toString b.xs ++ "-" ++ toString b.xe ++ "_" ++
  toString b.ys ++ "-" ++ toString b.ye ++ "_" ++
  toString b.zs ++ "-" ++ toString b.ze

/-- The observable actions of one `Executor.__call__` invocation, in order.
`uploadLog root dir fname` records `self._upload_log(os.path.join(root, dir))`
writing file `fname` (the bbox filename). -/
inductive Event where
  | readOutputMask
  | readImage
  | validateImage
  | maskMissingSections
  | inference
  | crop
  | maskOutput
  | uploadOutput
  | createOutputThumbnail
  | uploadLog (root : String) (dir : String) (fname : String)
deriving DecidableEq

/-- How one invocation ends: normal return, or a propagating Python exception. -/
inductive Outcome where
  | done
  | raised (msg : String)
deriving DecidableEq

/-- Configuration and environment of one `Executor.__call__` invocation.
Stages whose success depends on external collaborators (store reads, the
inference engine, uploads) are abstracted by a success flag; the mask contents
and the two validation verdicts are the data the control flow inspects. -/
structure ExecConfig where
  outputLayerPath : String
  outputBbox : BBox3
  /-- `output_mask_layer_path` is set (not None and not empty). -/
  maskConfigured : Bool
  /-- elements of the fetched, squeezed output mask (when configured). -/
  fetchedMask : List Int
  /-- `image_validate_mip` is not None. -/
  validateConfigured : Bool
  /-- result of `validate_by_template_matching` on the downsampled image. -/
  heuristicPasses : Bool
  /-- whether `np.alltrue(validate_image == clamped_image)` holds. -/
  referenceMatches : Bool
  readImageOk : Bool
  missingSectionsOk : Bool
  inferenceOk : Bool
  maskOutputOk : Bool
  uploadOutputOk : Bool
  thumbnailOk : Bool

/-- `np.all(self.output_mask == 0)` where `self.output_mask` may be None.
For None, `None == 0` is the Python scalar False and `np.all False = False`;
for an array it is the elementwise check (vacuously true when empty). -/
def npAllZero : Option (List Int) → Bool
  | none => false
  | some vals => vals.all (fun v => v == 0)

/-- Python truthiness `bool(x)` of an optional numpy array, as used by
`if self.output_mask:`.  None is falsy; a one-element array is truthy iff the
element is nonzero; an array of two or more elements raises
"ValueError: the truth value of an array with more than one element is
ambiguous". -/
def npTruthy : Option (List Int) → Except String Bool
  | none => .ok false
  | some [] => .ok false
  | some [v] => .ok (v != 0)
  | some (_ :: _ :: _) => .error "ValueError: ambiguous truth value of array"

/-- The tail of `Executor.__call__` after the optional `_mask_output` step:
`_upload_output`, `_create_output_thumbnail`, then the final
`self._upload_log(os.path.join(self.output_layer_path, log))`. -/
def finishRun (cfg : ExecConfig) (t : List Event) : List Event × Outcome :=
  if !cfg.uploadOutputOk then
    (t ++ [Event.uploadOutput], .raised "upload output failed")
  else if !cfg.thumbnailOk then
    (t ++ [Event.uploadOutput, Event.createOutputThumbnail],
     .raised "create thumbnail failed")
  else
    (t ++ [Event.uploadOutput, Event.createOutputThumbnail,
      Event.uploadLog cfg.outputLayerPath "log" cfg.outputBbox.toFilename],
     .done)

/-- The inner behaviour of `Executor._validate_image`: a no-op when
`image_validate_mip` is None; otherwise the template-matching heuristic, whose
failure uploads the log to `<output_layer_path>/error` and continues, followed
by `assert np.alltrue(validate_image == clamped_image)`, whose failure raises.
Returns the extended trace and an exception message when the assert fires. -/
def validateStage (cfg : ExecConfig) (t : List Event) :
    List Event × Option String :=
  if !cfg.validateConfigured then (t, none)
  else
    let t := if cfg.heuristicPasses then t
      else t ++ [Event.uploadLog cfg.outputLayerPath "error"
                  cfg.outputBbox.toFilename]
    if cfg.referenceMatches then (t, none)
    else (t, some "AssertionError: validate image mismatch")

/-- The stages of `Executor.__call__` after `_validate_image` returns:
`_mask_missing_sections`, `_inference`, `_crop`, the `if self.output_mask:`
truthiness test guarding `_mask_output`, then the upload tail. -/
def postValidate (cfg : ExecConfig) (t : List Event) : List Event × Outcome :=
  if !cfg.missingSectionsOk then
    (t ++ [Event.maskMissingSections], .raised "mask missing sections failed")
  else if !cfg.inferenceOk then
    (t ++ [Event.maskMissingSections, Event.inference],
     .raised "inference failed")
  else
    match npTruthy (if cfg.maskConfigured then some cfg.fetchedMask else none) with
    | .error e =>
      (t ++ [Event.maskMissingSections, Event.inference, Event.crop], .raised e)
    | .ok true =>
      if !cfg.maskOutputOk then
        (t ++ [Event.maskMissingSections, Event.inference, Event.crop,
          Event.maskOutput], .raised "mask output failed")
      else
        finishRun cfg (t ++ [Event.maskMissingSections, Event.inference,
          Event.crop, Event.maskOutput])
    | .ok false =>
      finishRun cfg (t ++ [Event.maskMissingSections, Event.inference, Event.crop])

/-- Shallow embedding of `Executor.__call__`: the stage sequence with its two
data-dependent branches (the all-zero-mask early return and the
`if self.output_mask:` test before `_mask_output`), yielding the trace of
observable actions and the outcome. -/
def runExecutor (cfg : ExecConfig) : List Event × Outcome :=
  if npAllZero (if cfg.maskConfigured then some cfg.fetchedMask else none) then
    ([Event.readOutputMask], .done)
  else if !cfg.readImageOk then
    ([Event.readOutputMask, Event.readImage], .raised "read image failed")
  else
    match validateStage cfg
        [Event.readOutputMask, Event.readImage, Event.validateImage] with
    | (t, some e) => (t, .raised e)
    | (t, none) => postValidate cfg t

/-- Does an event publish the per-run log to the normal `log` directory? -/
def isLogUpload : Event → Bool
  | .uploadLog _ dir _ => dir == "log"
  | _ => false

/-- Does an event publish the per-run log to the `error` directory? -/
def isErrUpload : Event → Bool
  | .uploadLog _ dir _ => dir == "error"
  | _ => false

/-- Does an event publish the per-run log at all? -/
def isAnyLogUpload : Event → Bool
  | .uploadLog _ _ _ => true
  | _ => false

/-- The discipline the per-run log publication follows in one invocation: at
most one publish to the normal log directory, at most one to the error
directory, none to the normal directory when the invocation aborts, and on a
completed invocation that got past the fetch-mask stage the normal-directory
publish is the very last action. -/
def LogDiscipline (cfg : ExecConfig) (r : List Event × Outcome) : Prop :=
  r.1.countP isLogUpload ≤ 1 ∧
  r.1.countP isErrUpload ≤ 1 ∧
  (r.2 ≠ Outcome.done → r.1.countP isLogUpload = 0) ∧
  (r.2 = Outcome.done → Event.readImage ∈ r.1 →
    r.1.getLast? =
      some (Event.uploadLog cfg.outputLayerPath "log" cfg.outputBbox.toFilename))

/-- Shallow embedding of `Executor._mask_output` (coarse mask at factor `f` in
the two lateral axes).  The two short-circuits come first; then
`assert np.any(self.output_mask)`; then the strided assignments building the
upsampled mask, which require the output's lateral extents to tile exactly into
the coarse mask (numpy raises a broadcast ValueError otherwise) and give
`mask[z][y][x] = coarse[z][y / f][x / f]`; then the in-place multiplications of
channels 0, 1 and 2 (indexing channel 2 presupposes at least three channels);
finally `assert np.any(self.output)`. -/
def maskOutput (f : Nat) (coarse : Arr3 Int) (output : Arr4 Int) :
    Except String (Arr4 Int) :=
  if coarse.allNonzero then .ok output
  else if output.allZero then .ok output
  else if coarse.allZero then .error "AssertionError: mask is all zero"
  else if output.s1 = coarse.s0 ∧ output.s2 = f * coarse.s1 ∧
      output.s3 = f * coarse.s2 then
    if 3 ≤ output.s0 then
      let res : Arr4 Int :=
        ⟨output.s0, output.s1, output.s2, output.s3, fun c z y x =>
          if c < 3 then output.data c z y x * coarse.data z (y / f) (x / f)
          else output.data c z y x⟩
      if res.allZero then .error "AssertionError: masked output is all zero"
      else .ok res
    else .error "IndexError: fewer than three output channels"
  else .error "ValueError: could not broadcast mask"

/-- `self.image[idx, :, :] = 0`: a whole depth slice replaced by zeros of the
same shape. -/
def zeroSlice (s : List (List Int)) : List (List Int) :=
  s.map (fun row => row.map (fun _ => 0))

/-- Shallow embedding of the loop of `Executor._mask_missing_sections`.  The
image is the list of depth slices with global depth offset `start`, so that the
depth axis spans `[start, start + length)` and `zslice.stop` is
`start + length`.  For each listed id `z` in order: `if z > stop: break`,
`elif z >= start and z <= stop:` zero the slice at local index `z - start`,
which numpy rejects with an IndexError when that index is out of range. -/
def maskMissingSections (start : Int) (img : List (List (List Int))) :
    List Int → Except String (List (List (List Int)))
  | [] => .ok img
  | z :: rest =>
    let stop : Int := start + img.length
    if z > stop then .ok img
    else if start ≤ z ∧ z ≤ stop then
      if h : (z - start).toNat < img.length then
        maskMissingSections start
          (img.set (z - start).toNat (zeroSlice (img.get ⟨(z - start).toNat, h⟩)))
          rest
      else .error "IndexError: section index out of range"
    else maskMissingSections start img rest

/-- Shallow embedding of `Executor._crop`:
`self.output[:, m0 : s1 - m0, m1 : s2 - m1, m2 : s3 - m2]`. -/
def crop (m0 m1 m2 : Nat) (output : Arr4 Int) : Arr4 Int :=
  ⟨output.s0, output.s1 - 2 * m0, output.s2 - 2 * m1, output.s3 - 2 * m2,
   fun c z y x => output.data c (z + m0) (y + m1) (x + m2)⟩

/-- Output extent of one axis downsampled by factor `f` (ceiling division, the
boundary block being clipped). -/
def dsShape (f s : Nat) : Nat := (s + f - 1) / f

/-- The indices of the factor-`f` block number `i` along an axis of extent `s`,
clipped at the boundary. -/
def blockIdxs (f s i : Nat) : List Nat :=
  ((List.range f).map (fun d => f * i + d)).filter (fun p => p < s)

/-- Modelled from the spec: `downsample_with_averaging`
(chunkflow/igneous/downsample.py, not under src/), the box-average downsample of
§4.5 with a per-axis integer factor: every output sample is the arithmetic mean
of its factor-sized block of input samples, blocks clipped at the boundary.
Values are exact rationals.  Axis order here is the x, y, z order the clamped
image has at the call site in `Executor._validate_image`. -/
def downsampleWithAveraging (f0 f1 f2 : Nat) (a : Arr3 ℚ) : Arr3 ℚ :=
  ⟨dsShape f0 a.s0, dsShape f1 a.s1, dsShape f2 a.s2, fun i j k =>
    let is := blockIdxs f0 a.s0 i
    let js := blockIdxs f1 a.s1 j
    let ks := blockIdxs f2 a.s2 k
    let n := is.length * js.length * ks.length
    ((is.map (fun u =>
        ((js.map (fun v =>
            ((ks.map (fun w => a.data u v w)).sum))).sum))).sum) / (n : ℚ)⟩

/-- Shallow embedding of the downsampling loop of `Executor._validate_image`:
`for _ in range(self.image_validate_mip - self.image_mip): clamped_image =
downsample_with_averaging(clamped_image, np.array([2, 2, 1]))`. -/
def validateDownsampleLoop : Nat → Arr3 ℚ → Arr3 ℚ
  | 0, img => img
  | n + 1, img => validateDownsampleLoop n (downsampleWithAveraging 2 2 1 img)

/-- The downsampling performed by `Executor._validate_image` on the clamped
image, as a function of the two mip levels. -/
def validateImageDownsample (imageMip imageValidateMip : Nat) (img : Arr3 ℚ) :
    Arr3 ℚ :=
  validateDownsampleLoop (imageValidateMip - imageMip) img

/-- What one call of `SQSQueue.__next__` can produce, with `outOfFuel` marking
that the bounded replay of the self-recursion was exhausted without the call
returning or raising. -/
inductive SqsResult where
  | message (handle : String) (body : String)
  | stopIteration
  | outOfFuel
deriving DecidableEq

/-- Shallow embedding of `SQSQueue.__next__`.  `responses attempt` is what the
`attempt`-th `receive_message` call yields: `none` when the reply has no
Messages field (empty queue), `some (handle, body)` otherwise.  On an empty
reply, a truthy `wait_if_empty` sleeps and re-enters `self.__next__()`;
otherwise StopIteration is raised.  `fuel` bounds the number of receive
attempts replayed. -/
def sqsNextAux (responses : Nat → Option (String × String))
    (waitIfEmpty : Nat) : Nat → Nat → SqsResult
  | 0, _ => .outOfFuel
  | fuel + 1, attempt =>
    match responses attempt with
    | some (h, b) => .message h b
    | none =>
      if waitIfEmpty ≠ 0 then sqsNextAux responses waitIfEmpty fuel (attempt + 1)
      else .stopIteration

/-- One call of `SQSQueue.__next__` starting at the first receive attempt. -/
def sqsNext (responses : Nat → Option (String × String))
    (waitIfEmpty fuel : Nat) : SqsResult :=
  sqsNextAux responses waitIfEmpty fuel 0

/-- A persistently empty queue: every receive attempt comes back without
messages. -/
def emptyResponses : Nat → Option (String × String) := fun _ => none

/-- A fully healthy configuration with no output mask layer and no validation
mip, used as the base of the concrete invocations below. -/
def cfgBase : ExecConfig :=
  { outputLayerPath := "precomputed-affinity"
    outputBbox := ⟨0, 4, 0, 4, 0, 4⟩
    maskConfigured := false
    fetchedMask := []
    validateConfigured := false
    heuristicPasses := true
    referenceMatches := true
    readImageOk := true
    missingSectionsOk := true
    inferenceOk := true
    maskOutputOk := true
    uploadOutputOk := true
    thumbnailOk := true }

/-- A configured mask layer whose fetched mask is entirely zero. -/
def cfgZeroMask : ExecConfig :=
  { cfgBase with maskConfigured := true, fetchedMask := [0, 0, 0, 0] }

/-- A configured mask layer whose fetched mask has two elements and is not all
zero. -/
def cfgLiveMask : ExecConfig :=
  { cfgBase with maskConfigured := true, fetchedMask := [1, 0] }

/-- Validation configured and the template-matching heuristic reporting
failure, every other stage healthy. -/
def cfgHeurFail : ExecConfig :=
  { cfgBase with validateConfigured := true, heuristicPasses := false }

/-- An image of 20 depth slices, global depth span `[90, 110)`, slice at local
index `i` holding the value `i`. -/
def imgA : List (List (List Int)) :=
  (List.range 20).map (fun i => [[(i : Int)]])

/-- `imgA` with exactly the slices at global depths 100 and 105 (local indices
10 and 15) zeroed. -/
def imgB : List (List (List Int)) :=
  (List.range 20).map (fun i => if i = 10 ∨ i = 15 then [[(0 : Int)]] else [[(i : Int)]])

/-- A coarse mask whose elements are all nonzero. -/
def coarseOnes : Arr3 Int := ⟨2, 2, 2, fun _ _ _ => 1⟩

/-- A coarse mask holding both a nonzero and a zero element. -/
def coarseMix : Arr3 Int := ⟨1, 1, 2, fun _ _ k => if k = 0 then 1 else 0⟩

/-- A three-channel all-ones output aligned with `coarseMix` at factor 2. -/
def outOnes : Arr4 Int := ⟨3, 1, 2, 4, fun _ _ _ _ => 1⟩

/-- A three-channel all-zero output. -/
def outZero : Arr4 Int := ⟨3, 1, 2, 4, fun _ _ _ _ => 0⟩

/-- `outOnes` with channels 0, 1, 2 multiplied by the factor-2 upsampling of
`coarseMix`. -/
def outMasked : Arr4 Int :=
  ⟨3, 1, 2, 4, fun c z y x =>
    if c < 3 then outOnes.data c z y x * coarseMix.data z (y / 2) (x / 2)
    else outOnes.data c z y x⟩

/-- A `(3, 68, 320, 320)` output buffer. -/
def bigBuf : Arr4 Int := ⟨3, 68, 320, 320, fun c z y x => (c : Int) + z + y + x⟩

/-- Claim C1: an invocation whose fetched output mask is entirely zero returns
right after the fetch-mask stage: the trace is the single fetch-mask action, so
no image read, validation, inference, crop, mask application or store write
happens. -/
theorem c1_all_zero_mask_early_exit (cfg : ExecConfig)
    (h1 : cfg.maskConfigured = true)
    (h2 : cfg.fetchedMask.all (fun v => v == 0) = true) :
    runExecutor cfg = ([Event.readOutputMask], Outcome.done) := by
  unfold runExecutor
  simp [h1, npAllZero, h2]

/-- Witness for C1 at the concrete invocation `cfgZeroMask`. -/
theorem c1_all_zero_mask_early_exit_witness :
    cfgZeroMask.maskConfigured = true ∧
    cfgZeroMask.fetchedMask.all (fun v => v == 0) = true ∧
    runExecutor cfgZeroMask = ([Event.readOutputMask], Outcome.done) :=
  ⟨by decide, by decide,
   c1_all_zero_mask_early_exit cfgZeroMask (by decide) (by decide)⟩

/-- Claim C2 fails on the code: with a configured mask layer whose fetched mask
has more than one element and is not all zero, the `if self.output_mask:` test
after the crop stage applies Python truthiness to a multi-element numpy array
and raises ValueError, so the invocation aborts and neither the mask-output
stage nor any store write runs.  Evaluated here at the concrete invocation
`cfgLiveMask`. -/
theorem c2_mask_present_check_raises :
    runExecutor cfgLiveMask =
      ([Event.readOutputMask, Event.readImage, Event.validateImage,
        Event.maskMissingSections, Event.inference, Event.crop],
       Outcome.raised "ValueError: ambiguous truth value of array") ∧
    Event.maskOutput ∉ (runExecutor cfgLiveMask).1 ∧
    Event.uploadOutput ∉ (runExecutor cfgLiveMask).1 :=
  ⟨by decide, by decide, by decide⟩

/-- Counterexample to claim C3: in the concrete invocation `cfgHeurFail` the
template-matching heuristic fails, the run completes, and the per-run log is
published twice — once to the error directory mid-run and once to the log
directory at the end. -/
theorem c3_counterexample_log_published_twice :
    (runExecutor cfgHeurFail).1.countP isAnyLogUpload = 2 ∧
    (runExecutor cfgHeurFail).2 = Outcome.done :=
  ⟨by decide, by decide⟩

/-- Claim C5 is right and the code is wrong: the loop of
`_mask_missing_sections` tests `z <= stop` against the exclusive depth stop, so
a listed id equal to `stop` addresses the out-of-range slice `stop - start` and
raises IndexError instead of being skipped.  First conjunct: the in-range
scenario (ids 100 and 105, depth span `[90, 110)`) zeroes exactly those two
slices; second conjunct: the failing input (id 110, same span) errors. -/
theorem c5_missing_sections_eval :
    maskMissingSections 90 imgA [100, 105] = .ok imgB ∧
    maskMissingSections 90 imgA [110] =
      .error "IndexError: section index out of range" :=
  ⟨rfl, rfl⟩

/-- Claim C6: the mask-output stage short-circuits without changing anything —
an all-nonzero coarse mask returns the output unchanged, and an all-zero
output makes the stage a no-op. -/
theorem c6_mask_output_short_circuit (f : Nat) (coarse : Arr3 Int)
    (output : Arr4 Int) :
    (coarse.allNonzero → maskOutput f coarse output = .ok output) ∧
    (output.allZero → maskOutput f coarse output = .ok output) := by
  constructor
  · intro h
    unfold maskOutput
    rw [if_pos h]
  · intro h
    unfold maskOutput
    by_cases hA : coarse.allNonzero
    · rw [if_pos hA]
    · rw [if_neg hA, if_pos h]

/-- Claim C7: cropping margin `(m0, m1, m2)` from a buffer of shape
`(C, D + 2*m0, H + 2*m1, W + 2*m2)` yields shape `(C, D, H, W)` whose entries
are exactly the interior voxels, channels untouched. -/
theorem c7_crop_interior (C D H W m0 m1 m2 : Nat) (output : Arr4 Int)
    (h0 : output.s0 = C) (h1 : output.s1 = D + 2 * m0)
    (h2 : output.s2 = H + 2 * m1) (h3 : output.s3 = W + 2 * m2) :
    (crop m0 m1 m2 output).s0 = C ∧ (crop m0 m1 m2 output).s1 = D ∧
    (crop m0 m1 m2 output).s2 = H ∧ (crop m0 m1 m2 output).s3 = W ∧
    ∀ c z y x, (crop m0 m1 m2 output).data c z y x =
      output.data c (z + m0) (y + m1) (x + m2) := by
  refine ⟨h0, ?_, ?_, ?_, fun c z y x => rfl⟩
  · show output.s1 - 2 * m0 = D
    omega
  · show output.s2 - 2 * m1 = H
    omega
  · show output.s3 - 2 * m2 = W
    omega

/-- Witness for C7 at the concrete example of the spec: margin `(4, 32, 32)`
crops a `(3, 68, 320, 320)` buffer to `(3, 60, 256, 256)`. -/
theorem c7_crop_interior_witness :
    (crop 4 32 32 bigBuf).s0 = 3 ∧ (crop 4 32 32 bigBuf).s1 = 60 ∧
    (crop 4 32 32 bigBuf).s2 = 256 ∧ (crop 4 32 32 bigBuf).s3 = 256 ∧
    ∀ c z y x, (crop 4 32 32 bigBuf).data c z y x =
      bigBuf.data c (z + 4) (y + 32) (x + 32) :=
  c7_crop_interior 3 60 256 256 4 32 32 bigBuf rfl rfl rfl rfl

/-- On a persistently empty queue, a truthy `wait_if_empty` makes `__next__`
sleep and re-enter itself forever: every amount of fuel is exhausted. -/
theorem sqsNextAux_empty_of_ne (w : Nat) (hw : w ≠ 0) :
    ∀ fuel attempt, sqsNextAux emptyResponses w fuel attempt = SqsResult.outOfFuel
  | 0, _ => rfl
  | fuel + 1, attempt => by
    unfold sqsNextAux emptyResponses
    simp only [hw, ne_eq, not_false_eq_true, if_true, ite_true]
    exact sqsNextAux_empty_of_ne w hw fuel (attempt + 1)

/-- Counterexample to claim C9: with the nonzero default empty-queue wait of
100 seconds, `__next__` on a persistently empty queue never raises
StopIteration — no amount of fuel makes the replay reach it. -/
theorem c9_counterexample_never_stops :
    (∃ fuel, sqsNext emptyResponses 100 fuel = SqsResult.stopIteration) = False := by
  refine eq_false ?_
  rintro ⟨fuel, h⟩
  rw [sqsNext, sqsNextAux_empty_of_ne 100 (by decide)] at h
  exact SqsResult.noConfusion h

/-- Amended claim C9: on a persistently empty queue, `__next__` raises
StopIteration immediately when the configured empty-queue wait is zero (falsy),
and with a nonzero wait it retries indefinitely, never raising StopIteration
within any bounded number of receive attempts. -/
theorem c9_sqs_empty_queue_behavior (w fuel : Nat) (hw : w ≠ 0) :
    sqsNext emptyResponses w fuel = SqsResult.outOfFuel ∧
    sqsNext emptyResponses 0 (fuel + 1) = SqsResult.stopIteration :=
  ⟨sqsNextAux_empty_of_ne w hw fuel 0, rfl⟩

/-- Witness for the amended C9 at wait 100 and fuel 5. -/
theorem c9_sqs_empty_queue_behavior_witness :
    sqsNext emptyResponses 100 5 = SqsResult.outOfFuel ∧
    sqsNext emptyResponses 0 6 = SqsResult.stopIteration :=
  c9_sqs_empty_queue_behavior 100 5 (by decide)

/-- Claim C10: when neither short-circuit of the mask-output stage fires and it
returns a masked output, the output had at least three channels, shapes are
preserved, every channel of index 3 or greater is unchanged, and channels 0, 1
and 2 are multiplied pointwise by the upsampled mask. -/
theorem c10_mask_output_channel_frame (f : Nat) (coarse : Arr3 Int)
    (output out : Arr4 Int)
    (h1 : ¬ coarse.allNonzero) (h2 : ¬ output.allZero)
    (h3 : maskOutput f coarse output = .ok out) :
    3 ≤ output.s0 ∧
    out.s0 = output.s0 ∧ out.s1 = output.s1 ∧ out.s2 = output.s2 ∧
    out.s3 = output.s3 ∧
    (∀ c z y x, 3 ≤ c → out.data c z y x = output.data c z y x) ∧
    (∀ c z y x, c < 3 → out.data c z y x =
      output.data c z y x * coarse.data z (y / f) (x / f)) := by
  unfold maskOutput at h3
  rw [if_neg h1, if_neg h2] at h3
  split at h3
  · exact absurd h3 (by simp)
  · split at h3
    · split at h3
      · dsimp only at h3
        split at h3
        · exact absurd h3 (by simp)
        · injection h3 with h4
          subst h4
          refine ⟨by assumption, rfl, rfl, rfl, rfl, ?_, ?_⟩
          · intro c z y x hc
            dsimp only
            rw [if_neg (by omega)]
          · intro c z y x hc
            dsimp only
            rw [if_pos hc]
      · exact absurd h3 (by simp)
    · exact absurd h3 (by simp)

theorem isLogUpload_err (root fname : String) :
    isLogUpload (Event.uploadLog root "error" fname) = false := rfl

theorem isErrUpload_err (root fname : String) :
    isErrUpload (Event.uploadLog root "error" fname) = true := rfl

theorem isLogUpload_log (root fname : String) :
    isLogUpload (Event.uploadLog root "log" fname) = true := rfl

theorem isErrUpload_log (root fname : String) :
    isErrUpload (Event.uploadLog root "log" fname) = false := rfl

/-- `_validate_image` either leaves the trace alone or appends exactly one
error-directory log upload, and either returns or raises the reference-image
assert. -/
theorem validateStage_cases (cfg : ExecConfig) (t : List Event) :
    validateStage cfg t = (t, none) ∨
    validateStage cfg t = (t, some "AssertionError: validate image mismatch") ∨
    validateStage cfg t =
      (t ++ [Event.uploadLog cfg.outputLayerPath "error" cfg.outputBbox.toFilename],
       none) ∨
    validateStage cfg t =
      (t ++ [Event.uploadLog cfg.outputLayerPath "error" cfg.outputBbox.toFilename],
       some "AssertionError: validate image mismatch") := by
  unfold validateStage
  repeat' split
  all_goals simp

/-- With validation configured and the heuristic failing, `_validate_image`
appends the error-directory upload and raises exactly when the reference
comparison fails. -/
theorem validateStage_heuristic_fail (cfg : ExecConfig) (t : List Event)
    (h1 : cfg.validateConfigured = true) (h2 : cfg.heuristicPasses = false) :
    validateStage cfg t =
      (t ++ [Event.uploadLog cfg.outputLayerPath "error" cfg.outputBbox.toFilename],
       if cfg.referenceMatches then none
       else some "AssertionError: validate image mismatch") := by
  unfold validateStage
  rw [h1, h2]
  by_cases h3 : cfg.referenceMatches = true <;> simp [h3]

/-- The upload tail keeps every event already in the trace. -/
theorem finishRun_mem (cfg : ExecConfig) (t : List Event) (e : Event)
    (he : e ∈ t) : e ∈ (finishRun cfg t).1 := by
  unfold finishRun
  repeat' split
  all_goals simp [List.mem_append, he]

/-- The post-validation stages keep every event already in the trace and always
record the mask-missing-sections action. -/
theorem postValidate_mem (cfg : ExecConfig) (t : List Event) (e : Event)
    (he : e ∈ t ∨ e = Event.maskMissingSections) :
    e ∈ (postValidate cfg t).1 := by
  have hm : ∀ l : List Event, e ∈ t ++ (Event.maskMissingSections :: l) := by
    intro l
    rcases he with h | rfl
    · simp [List.mem_append, h]
    · simp [List.mem_append]
  unfold postValidate
  repeat' split
  all_goals
    first
      | exact hm _
      | (apply finishRun_mem; exact hm _)

/-- The upload tail obeys the log discipline whenever the trace so far has no
normal-directory upload and at most one error-directory upload. -/
theorem finishRun_logDiscipline (cfg : ExecConfig) (t : List Event)
    (h1 : t.countP isLogUpload = 0) (h2 : t.countP isErrUpload ≤ 1) :
    LogDiscipline cfg (finishRun cfg t) := by
  unfold LogDiscipline finishRun
  split
  · refine ⟨?_, ?_, fun _ => ?_, fun hd => absurd hd (by simp)⟩ <;>
      simp [List.countP_append, List.countP_cons, List.countP_nil, h1, h2,
        isLogUpload, isErrUpload]
  · split
    · refine ⟨?_, ?_, fun _ => ?_, fun hd => absurd hd (by simp)⟩ <;>
        simp [List.countP_append, List.countP_cons, List.countP_nil, h1, h2,
          isLogUpload, isErrUpload]
    · refine ⟨?_, ?_, fun hne => absurd rfl hne, fun _ _ => ?_⟩
      · simp [List.countP_append, List.countP_cons, List.countP_nil, h1,
          isLogUpload, isLogUpload_log]
      · simp [List.countP_append, List.countP_cons, List.countP_nil, h2,
          isErrUpload, isErrUpload_log]
      · simp [List.getLast?_append]

/-- The post-validation stages obey the log discipline under the same
precondition. -/
theorem postValidate_logDiscipline (cfg : ExecConfig) (t : List Event)
    (h1 : t.countP isLogUpload = 0) (h2 : t.countP isErrUpload ≤ 1) :
    LogDiscipline cfg (postValidate cfg t) := by
  unfold postValidate
  repeat' split
  all_goals
    first
      | exact finishRun_logDiscipline cfg _
          (by simp [List.countP_append, List.countP_cons, List.countP_nil, h1,
            isLogUpload])
          (by simp [List.countP_append, List.countP_cons, List.countP_nil, h2,
            isErrUpload])
      | (unfold LogDiscipline
         refine ⟨?_, ?_, fun _ => ?_, fun hd => absurd hd (by simp)⟩ <;>
           simp [List.countP_append, List.countP_cons, List.countP_nil, h1, h2,
             isLogUpload, isErrUpload])

/-- Every invocation obeys the log discipline. -/
theorem runExecutor_logDiscipline (cfg : ExecConfig) :
    LogDiscipline cfg (runExecutor cfg) := by
  unfold runExecutor
  by_cases h0 : npAllZero (if cfg.maskConfigured then some cfg.fetchedMask else none)
  · rw [if_pos h0]
    exact ⟨by simp [isLogUpload], by simp [isErrUpload],
      fun _ => by simp [isLogUpload], fun _ hm => absurd hm (by simp)⟩
  · rw [if_neg h0]
    by_cases hri : cfg.readImageOk = true
    · rw [if_neg (by simp [hri])]
      rcases validateStage_cases cfg
          [Event.readOutputMask, Event.readImage, Event.validateImage] with
        hv | hv | hv | hv <;> rw [hv] <;> dsimp only
      · exact postValidate_logDiscipline cfg _ (by simp [isLogUpload])
          (by simp [isErrUpload])
      · exact ⟨by simp [isLogUpload], by simp [isErrUpload],
          fun _ => by simp [isLogUpload], fun hd => absurd hd (by simp)⟩
      · exact postValidate_logDiscipline cfg _
          (by simp [List.countP_append, List.countP_cons, List.countP_nil,
            isLogUpload, isLogUpload_err])
          (by simp [List.countP_append, List.countP_cons, List.countP_nil,
            isErrUpload, isErrUpload_err])
      · refine ⟨?_, ?_, fun _ => ?_, fun hd => absurd hd (by simp)⟩ <;>
          simp [List.countP_append, List.countP_cons, List.countP_nil,
            isLogUpload, isErrUpload, isLogUpload_err, isErrUpload_err]
    · rw [if_pos (by simp [hri])]
      exact ⟨by simp [isLogUpload], by simp [isErrUpload],
        fun _ => by simp [isLogUpload], fun hd => absurd hd (by simp)⟩

/-- Amended claim C3: within one invocation the per-run log is published at
most once to the normal log directory and at most once to the error directory;
an aborted invocation never publishes to the normal directory, and on a
completed invocation that got past the fetch-mask stage the normal-directory
publish is the very last action.  (The original claim fails: a completed run
whose heuristic failed publishes twice, see the counterexample.) -/
theorem c3_log_published_once_per_path (cfg : ExecConfig) :
    (runExecutor cfg).1.countP isLogUpload ≤ 1 ∧
    (runExecutor cfg).1.countP isErrUpload ≤ 1 ∧
    ((runExecutor cfg).2 ≠ Outcome.done →
      (runExecutor cfg).1.countP isLogUpload = 0) ∧
    ((runExecutor cfg).2 = Outcome.done → Event.readImage ∈ (runExecutor cfg).1 →
      (runExecutor cfg).1.getLast? =
        some (Event.uploadLog cfg.outputLayerPath "log" cfg.outputBbox.toFilename)) :=
  runExecutor_logDiscipline cfg

/-- Claim C4: when the template-matching heuristic reports failure the
invocation uploads its log to the error directory under the bbox filename and
still continues into the next stage (provided the reference comparison holds),
and a fully successful invocation ends by uploading its log to the normal log
directory under the bbox filename. -/
theorem c4_error_and_log_paths (cfg : ExecConfig) :
    (cfg.validateConfigured = true → cfg.heuristicPasses = false →
      Event.validateImage ∈ (runExecutor cfg).1 →
      Event.uploadLog cfg.outputLayerPath "error" cfg.outputBbox.toFilename
          ∈ (runExecutor cfg).1 ∧
      (cfg.referenceMatches = true →
        Event.maskMissingSections ∈ (runExecutor cfg).1)) ∧
    ((runExecutor cfg).2 = Outcome.done → Event.readImage ∈ (runExecutor cfg).1 →
      (runExecutor cfg).1.getLast? =
        some (Event.uploadLog cfg.outputLayerPath "log" cfg.outputBbox.toFilename)) := by
  refine ⟨?_, (runExecutor_logDiscipline cfg).2.2.2⟩
  intro h1 h2 hmem
  unfold runExecutor at hmem ⊢
  by_cases h0 : npAllZero (if cfg.maskConfigured then some cfg.fetchedMask else none)
  · rw [if_pos h0] at hmem
    simp at hmem
  · rw [if_neg h0] at hmem ⊢
    by_cases hri : cfg.readImageOk = true
    · rw [if_neg (by simp [hri])] at hmem ⊢
      rw [validateStage_heuristic_fail cfg _ h1 h2] at hmem ⊢
      by_cases h3 : cfg.referenceMatches = true
      · rw [if_pos h3] at hmem ⊢
        dsimp only at hmem ⊢
        constructor
        · exact postValidate_mem cfg _ _ (Or.inl (by simp))
        · intro _
          exact postValidate_mem cfg _ _ (Or.inr rfl)
      · rw [if_neg h3] at hmem ⊢
        dsimp only at hmem ⊢
        exact ⟨by simp, fun hr => absurd hr h3⟩
    · rw [if_pos (by simp [hri])] at hmem
      simp at hmem

/-- `validateDownsampleLoop` is the iterate of the single factor-`(2, 2, 1)`
box-average step. -/
theorem validateLoop_eq_iterate (n : Nat) (img : Arr3 ℚ) :
    validateDownsampleLoop n img =
      (fun a => downsampleWithAveraging 2 2 1 a)^[n] img := by
  induction n generalizing img with
  | zero => rfl
  | succ n ih =>
    rw [validateDownsampleLoop, Function.iterate_succ_apply]
    exact ih _

/-- One factor-`(2, 2, 1)` step halves (with remainder) the two lateral axes
and preserves the depth axis. -/
theorem downsample221_shape (a : Arr3 ℚ) :
    (downsampleWithAveraging 2 2 1 a).s0 = dsShape 2 a.s0 ∧
    (downsampleWithAveraging 2 2 1 a).s1 = dsShape 2 a.s1 ∧
    (downsampleWithAveraging 2 2 1 a).s2 = a.s2 := by
  refine ⟨rfl, rfl, ?_⟩
  show dsShape 1 a.s2 = a.s2
  simp [dsShape]

/-- The depth extent survives any number of loop iterations. -/
theorem validateLoop_s2 (n : Nat) (img : Arr3 ℚ) :
    (validateDownsampleLoop n img).s2 = img.s2 := by
  induction n generalizing img with
  | zero => rfl
  | succ n ih =>
    rw [validateDownsampleLoop, ih]
    exact (downsample221_shape img).2.2

/-- Claim C8: the validate-image stage downsamples by applying the
factor-`(2, 2, 1)` box average exactly `image_validate_mip - image_mip` times
in succession — each step halves only the two lateral axes, the depth extent is
preserved throughout, and the whole is the iterate of the single halving step
rather than one large-factor downsample. -/
theorem c8_validate_recursive_downsample (imageMip imageValidateMip : Nat)
    (img : Arr3 ℚ) :
    validateImageDownsample imageMip imageValidateMip img =
      (fun a => downsampleWithAveraging 2 2 1 a)^[imageValidateMip - imageMip]
        img ∧
    (validateImageDownsample imageMip imageValidateMip img).s2 = img.s2 ∧
    ∀ a : Arr3 ℚ, (downsampleWithAveraging 2 2 1 a).s0 = dsShape 2 a.s0 ∧
      (downsampleWithAveraging 2 2 1 a).s1 = dsShape 2 a.s1 ∧
      (downsampleWithAveraging 2 2 1 a).s2 = a.s2 :=
  ⟨validateLoop_eq_iterate _ img, validateLoop_s2 _ img, downsample221_shape⟩

/-- Witness for C10 at factor 2, the mixed coarse mask `coarseMix` and the
all-ones output `outOnes`, whose masked result is `outMasked`. -/
theorem c10_mask_output_channel_frame_witness :
    3 ≤ outOnes.s0 ∧
    outMasked.s0 = outOnes.s0 ∧ outMasked.s1 = outOnes.s1 ∧
    outMasked.s2 = outOnes.s2 ∧ outMasked.s3 = outOnes.s3 ∧
    (∀ c z y x, 3 ≤ c → outMasked.data c z y x = outOnes.data c z y x) ∧
    (∀ c z y x, c < 3 → outMasked.data c z y x =
      outOnes.data c z y x * coarseMix.data z (y / 2) (x / 2)) :=
  c10_mask_output_channel_frame 2 coarseMix outOnes outMasked
    (by decide) (by decide) rfl

end ChunkflowSpec
